import Mathlib

/-!
# To-do list manager: task store and interactive loop

A shallow embedding of the two implementations found in the repository:

* the class-based variant: `TodoManager` (`libs/todo.cpp`, `todo.h`) driven by
  `runApplication` (`src/ui.cpp`), embedded in the namespace `Ui`;
* the free-function variant (`todo.cpp`, functions `displayMenu`, `addTask`,
  `viewTasks`, `deleteTask`, `main`), embedded in the namespace `Free`.

`std::vector<std::string>` is a `List String`; `std::cout` is the string of
everything printed so far; `std::cin` is an abstract stream whose four
operations used by the program are parameters (`IStream`).
-/

set_option maxRecDepth 8000

/-! ## Machine integers -/

/-- Number of values of a `size_t` (64-bit unsigned). -/
def SIZE_MOD : Nat := 2 ^ 64

/-- Unsigned subtraction `a - b` on `size_t`: the result wraps modulo `2 ^ 64`. -/
def sizeSub (a b : Nat) : Nat := (a + SIZE_MOD - b % SIZE_MOD) % SIZE_MOD

/-! ## Task store (`todo.h`, `libs/todo.cpp`) -/

/-- The class `TodoManager`: its only member is the private vector `tasks`. -/
structure TodoManager where
  tasks : List String
deriving DecidableEq, Repr

namespace TodoManager

/-- A default-constructed `TodoManager`: the vector starts empty. -/
def empty : TodoManager := ⟨[]⟩

/-- `void TodoManager::addTask(const std::string &task) { tasks.push_back(task); }` -/
def addTask (self : TodoManager) (task : String) : TodoManager :=
  { self with tasks := self.tasks ++ [task] }

/-- `const std::vector<std::string> &TodoManager::getTasks() const { return tasks; }` -/
def getTasks (self : TodoManager) : List String := self.tasks

/-- `void TodoManager::deleteTask(size_t index)`: erases the element at `index`
when `index < tasks.size()`, and does nothing otherwise. -/
def deleteTask (self : TodoManager) (index : Nat) : TodoManager :=
  if index < self.tasks.length then
    { self with tasks := self.tasks.eraseIdx index }
  else
    self

end TodoManager

/-! ## Console streams -/

/-- The operations of `std::cin` that the program uses. The stream library is
not part of the repository, so the stream state `σ` and the effect of each
operation on it are parameters: every theorem below holds for any behaviour of
the stream (well-formed input, malformed input, end of input). -/
structure IStream (σ : Type) where
  /-- Formatted extraction `std::cin >> choice` into an `int`. -/
  readInt : σ → Int × σ
  /-- Formatted extraction `std::cin >> index` into a `size_t`: the value held
  by `index` afterwards. The variable is an uninitialised local, left unwritten
  when the extraction fails, so on a failed extraction this value belongs to
  the run of one program and is not determined by the input text. -/
  readSize : σ → Nat × σ
  /-- The call `std::cin.ignore()`. -/
  ignore : σ → σ
  /-- The call `std::getline(std::cin, task)`. -/
  getline : σ → String × σ
  /-- A `size_t` variable only holds values below `2 ^ 64`. -/
  readSize_lt : ∀ s, (readSize s).1 < SIZE_MOD

/-- Control state of a `while (true)` loop after one pass through its body:
still `running` (the body reached its end) or `exited` (the body executed
`return`). -/
inductive Loop (α : Type) where
  | running (s : α)
  | exited (s : α)
deriving DecidableEq, Repr

/-- The indexed printing loop
`for (size_t i = 0; i < tasks.size(); ++i) std::cout << i + 1 << ". " << tasks[i] << "\n";`
started at index `i`. It occurs verbatim in `runApplication` (cases 2 and 3)
and in the free function `viewTasks`. Since `i < tasks.size()`, the `size_t`
sum `i + 1` never wraps. -/
def printTasks (tasks : List String) (i : Nat) (cout : String) : String :=
  if h : i < tasks.length then
    printTasks tasks (i + 1) (cout ++ toString (i + 1) ++ ". " ++ tasks[i] ++ "\n")
  else
    cout
termination_by tasks.length - i

namespace Ui

/-- Program state of the class-based variant: the `TodoManager` passed by
reference, the state of `std::cin` and everything written to `std::cout`. -/
structure State (σ : Type) where
  todoManager : TodoManager
  cin : σ
  cout : String
deriving DecidableEq, Repr

/-- The function `displayMenu` of `src/ui.cpp`. -/
def displayMenu (cout : String) : String :=
  cout ++ "To-Do List Manager\n" ++ "1. Add Task\n" ++ "2. View Tasks\n" ++
    "3. Delete Task\n" ++ "4. Exit\n" ++ "Enter your choice: "

/-- One pass through the body of the `while (true)` loop of `runApplication`
(`src/ui.cpp`): menu, read of `choice`, and the `switch`. -/
def loopBody {σ : Type} (inp : IStream σ) (st : State σ) : Loop (State σ) :=
  let cout := displayMenu st.cout
  let choice := (inp.readInt st.cin).1
  let cin := (inp.readInt st.cin).2
  if choice = 1 then
    let cin := inp.ignore cin
    let cout := cout ++ "Enter task: "
    let task := (inp.getline cin).1
    let cin := (inp.getline cin).2
    let todoManager := st.todoManager.addTask task
    let cout := cout ++ "Task added!\n"
    .running ⟨todoManager, cin, cout ++ "\n"⟩
  else if choice = 2 then
    let tasks := st.todoManager.getTasks
    let cout :=
      if tasks.isEmpty then
        cout ++ "No tasks available.\n"
      else
        printTasks tasks 0 (cout ++ "Your Tasks:\n")
    .running ⟨st.todoManager, cin, cout ++ "\n"⟩
  else if choice = 3 then
    let tasks := st.todoManager.getTasks
    if tasks.isEmpty then
      .running ⟨st.todoManager, cin, cout ++ "No tasks to delete.\n" ++ "\n"⟩
    else
      let cout := printTasks tasks 0 (cout ++ "Your Tasks:\n")
      let cout := cout ++ "Enter task number to delete: "
      let index := (inp.readSize cin).1
      let cin := (inp.readSize cin).2
      if index > 0 && index ≤ tasks.length then
        let todoManager := st.todoManager.deleteTask (sizeSub index 1)
        .running ⟨todoManager, cin, cout ++ "Task deleted!\n" ++ "\n"⟩
      else
        .running ⟨st.todoManager, cin, cout ++ "Invalid task number.\n" ++ "\n"⟩
  else if choice = 4 then
    .exited ⟨st.todoManager, cin, cout ++ "Goodbye!\n"⟩
  else
    .running ⟨st.todoManager, cin, cout ++ "Invalid choice. Try again.\n" ++ "\n"⟩

/-- The function `runApplication` of `src/ui.cpp`, with the unbounded loop cut
after `fuel` passes: `exited st` when the loop returned within `fuel` passes,
`running st` when it is still going after exactly `fuel` passes. -/
def runApplication {σ : Type} (inp : IStream σ) : Nat → State σ → Loop (State σ)
  | 0, st => .running st
  | fuel + 1, st =>
    match loopBody inp st with
    | .running st' => runApplication inp fuel st'
    | .exited st' => .exited st'

end Ui

namespace Free

/-- Program state of the free-function variant (`todo.cpp`): the vector
`tasks` local to `main`, the state of `std::cin` and everything written to
`std::cout`. -/
structure State (σ : Type) where
  tasks : List String
  cin : σ
  cout : String
deriving DecidableEq, Repr

/-- The function `displayMenu` of `todo.cpp`. -/
def displayMenu (cout : String) : String :=
  cout ++ "To-Do List Manager\n" ++ "1. Add Task\n" ++ "2. View Task\n" ++
    "3. Delete Task\n" ++ "4. Exit\n" ++ "Enter your choice: \n"

/-- The function `addTask(vector<string>& tasks)` of `todo.cpp`. -/
def addTask {σ : Type} (inp : IStream σ) (st : State σ) : State σ :=
  let cout := st.cout ++ "Entter task: "
  let cin := inp.ignore st.cin
  let task := (inp.getline cin).1
  let cin := (inp.getline cin).2
  ⟨st.tasks ++ [task], cin, cout ++ "Task added!\n"⟩

/-- The function `viewTasks(const vector<string>& tasks)` of `todo.cpp`. -/
def viewTasks (tasks : List String) (cout : String) : String :=
  if tasks.isEmpty then
    cout ++ "No tasks avaialbe.\n"
  else
    printTasks tasks 0 (cout ++ "Your tasks:\n")

/-- The function `deleteTask(vector<string>& tasks)` of `todo.cpp`. The erased
position `tasks.begin() + index - 1` is iterator arithmetic and is reached only
with `index ≥ 1`, where it is exactly position `index - 1`. -/
def deleteTask {σ : Type} (inp : IStream σ) (st : State σ) : State σ :=
  if st.tasks.isEmpty then
    ⟨st.tasks, st.cin, st.cout ++ "Not tasks to delete.\n"⟩
  else
    let cout := viewTasks st.tasks st.cout
    let cout := cout ++ "Enter tasks number to delete: "
    let index := (inp.readSize st.cin).1
    let cin := (inp.readSize st.cin).2
    if index = 0 || index > st.tasks.length then
      ⟨st.tasks, cin, cout ++ "Invalid task number.\n"⟩
    else
      ⟨st.tasks.eraseIdx (index - 1), cin, cout ++ "Task delete!\n"⟩

/-- One pass through the body of the `while (true)` loop of `main`
(`todo.cpp`). -/
def loopBody {σ : Type} (inp : IStream σ) (st : State σ) : Loop (State σ) :=
  let cout := displayMenu st.cout
  let choice := (inp.readInt st.cin).1
  let cin := (inp.readInt st.cin).2
  let st : State σ := ⟨st.tasks, cin, cout⟩
  if choice = 1 then
    let st := addTask inp st
    .running { st with cout := st.cout ++ "\n" }
  else if choice = 2 then
    .running { st with cout := viewTasks st.tasks st.cout ++ "\n" }
  else if choice = 3 then
    let st := deleteTask inp st
    .running { st with cout := st.cout ++ "\n" }
  else if choice = 4 then
    .exited { st with cout := st.cout ++ "Googbye!\n" }
  else
    .running { st with cout := st.cout ++ "Invalid choice. Try again.\n" ++ "\n" }

/-- The loop of `main` (`todo.cpp`) cut after `fuel` passes, started from an
arbitrary task vector. -/
def mainLoop {σ : Type} (inp : IStream σ) : Nat → State σ → Loop (State σ)
  | 0, st => .running st
  | fuel + 1, st =>
    match loopBody inp st with
    | .running st' => mainLoop inp fuel st'
    | .exited st' => .exited st'

/-- The function `main` of `todo.cpp`: the task vector starts empty. -/
def main {σ : Type} (inp : IStream σ) (fuel : Nat) (cin : σ) : Loop (State σ) :=
  mainLoop inp fuel ⟨[], cin, ""⟩

end Free

/-! ## A scripted input stream

A concrete stream used to run the programs on explicit inputs: the values that
successive reads deliver are listed in advance, one queue per kind of read. -/

/-- Queues of the values still to be delivered by the scripted stream. -/
structure Script where
  ints : List Int
  sizes : List Nat
  lines : List String
deriving DecidableEq, Repr

/-- The scripted stream: each read pops the head of its queue (`0` or the empty
line once the queue is exhausted); `ignore` has no effect on the queues. -/
def scripted : IStream Script where
  readInt s := (s.ints.headD 0, { s with ints := s.ints.tail })
  readSize s := (s.sizes.headD 0 % SIZE_MOD, { s with sizes := s.sizes.tail })
  ignore s := s
  getline s := (s.lines.headD "", { s with lines := s.lines.tail })
  readSize_lt _ := Nat.mod_lt _ (by decide)

/-! ## Theorems -/

/-! ### Auxiliary facts -/

theorem string_join_cons (x : String) (xs : List String) :
    String.join (x :: xs) = x ++ String.join xs := by
  apply String.ext
  simp [String.join_eq]

theorem sizeSub_one (n : Nat) (h0 : 0 < n) (hlt : n < SIZE_MOD) : sizeSub n 1 = n - 1 := by
  unfold sizeSub
  have h1 : 1 % SIZE_MOD = 1 := by decide
  rw [h1]
  have h2 : n + SIZE_MOD - 1 = (n - 1) + SIZE_MOD := by omega
  rw [h2, Nat.add_mod_right]
  exact Nat.mod_eq_of_lt (by omega)

/-- The printing loop started at index `i` appends, in list order, one line per
task from position `i` on; the line of position `k` is `k + 1`, a dot, a blank,
the task text and a newline. -/
theorem printTasks_eq (tasks : List String) (i : Nat) (cout : String) :
    printTasks tasks i cout = cout ++ String.join ((List.ofFn (fun k : Fin tasks.length =>
      toString (k.val + 1) ++ ". " ++ tasks[k.val] ++ "\n")).drop i) := by
  have key : ∀ (n i : Nat) (cout : String), tasks.length - i = n →
      printTasks tasks i cout = cout ++ String.join ((List.ofFn (fun k : Fin tasks.length =>
        toString (k.val + 1) ++ ". " ++ tasks[k.val] ++ "\n")).drop i) := by
    intro n
    induction n with
    | zero =>
      intro i cout hn
      have hle : tasks.length ≤ i := by omega
      rw [printTasks, dif_neg (by omega), List.drop_of_length_le (by simpa using hle)]
      simp [String.join]
    | succ n ih =>
      intro i cout hn
      have hlt : i < tasks.length := by omega
      rw [printTasks, dif_pos hlt, ih (i + 1) _ (by omega)]
      have hL : i < (List.ofFn (fun k : Fin tasks.length =>
          toString (k.val + 1) ++ ". " ++ tasks[k.val] ++ "\n")).length := by
        simpa using hlt
      have hd := List.drop_eq_getElem_cons hL
      rw [hd, string_join_cons]
      simp [String.append_assoc]
  exact key _ i cout rfl


/-- C1: for an index `i` within bounds, `deleteTask i` yields a list one shorter
that is the old list with the element at position `i` removed: positions below
`i` are unchanged and every position `j > i` moves to `j - 1`. -/
theorem deleteTask_in_bounds (m : TodoManager) (i : Nat) (h : i < m.getTasks.length) :
    (m.deleteTask i).getTasks.length = m.getTasks.length - 1 ∧
    (m.deleteTask i).getTasks = m.getTasks.take i ++ m.getTasks.drop (i + 1) ∧
    (∀ j, j < i → (m.deleteTask i).getTasks[j]? = m.getTasks[j]?) ∧
    (∀ j, i < j → (m.deleteTask i).getTasks[j - 1]? = m.getTasks[j]?) := by
  have h' : i < m.tasks.length := h
  simp only [TodoManager.deleteTask, TodoManager.getTasks, if_pos h']
  refine ⟨List.length_eraseIdx_of_lt h', List.eraseIdx_eq_take_drop_succ _ _, ?_, ?_⟩
  · intro j hj
    exact List.getElem?_eraseIdx_of_lt _ _ _ hj
  · intro j hj
    have hge : i ≤ j - 1 := by omega
    rw [List.getElem?_eraseIdx_of_ge _ _ _ hge]
    have : j - 1 + 1 = j := by omega
    rw [this]

/-- Witness for C1 on the list A, B, C with index 1. -/
theorem deleteTask_in_bounds_witness :
    (1 < (TodoManager.mk ["A", "B", "C"]).getTasks.length) ∧
    ((TodoManager.mk ["A", "B", "C"]).deleteTask 1).getTasks = ["A", "C"] := by
  refine ⟨by decide, ?_⟩
  have h := (deleteTask_in_bounds ⟨["A", "B", "C"]⟩ 1 (by decide)).2.1
  rw [h]
  decide

/-- C2: for an index `i` at or beyond the length, `deleteTask i` returns
normally and leaves the list unchanged (same length, same contents). -/
theorem deleteTask_out_of_bounds (m : TodoManager) (i : Nat) (h : m.getTasks.length ≤ i) :
    m.deleteTask i = m ∧
    (m.deleteTask i).getTasks = m.getTasks ∧
    (m.deleteTask i).getTasks.length = m.getTasks.length := by
  have h' : ¬ i < m.tasks.length := Nat.not_lt.mpr h
  simp [TodoManager.deleteTask, h']

/-- Witness for C2 on a two-element list with index 2. -/
theorem deleteTask_out_of_bounds_witness :
    ((TodoManager.mk ["A", "B"]).getTasks.length ≤ 2) ∧
    ((TodoManager.mk ["A", "B"]).deleteTask 2).getTasks = ["A", "B"] :=
  ⟨by decide, (deleteTask_out_of_bounds ⟨["A", "B"]⟩ 2 (by decide)).2.1⟩

/-- C3: adding `t1 .. tk` in order to an empty manager makes `getTasks` return
exactly `[t1, .., tk]` (length `k`, call order); a single `addTask t` on any
list appends `t` at the end and increases the length by exactly one. -/
theorem addTask_sequence (ts : List String) (m : TodoManager) (t : String) :
    (ts.foldl TodoManager.addTask TodoManager.empty).getTasks = ts ∧
    (ts.foldl TodoManager.addTask TodoManager.empty).getTasks.length = ts.length ∧
    (m.addTask t).getTasks = m.getTasks ++ [t] ∧
    (m.addTask t).getTasks.length = m.getTasks.length + 1 := by
  have key : ∀ (xs : List String) (m0 : TodoManager),
      (xs.foldl TodoManager.addTask m0).tasks = m0.tasks ++ xs := by
    intro xs
    induction xs with
    | nil => intro m0; simp
    | cons x xs ih =>
      intro m0
      rw [List.foldl_cons, ih]
      simp [TodoManager.addTask]
  have h0 : (ts.foldl TodoManager.addTask TodoManager.empty).getTasks = ts := by
    show (ts.foldl TodoManager.addTask TodoManager.empty).tasks = ts
    rw [key]
    simp [TodoManager.empty]
  refine ⟨h0, by rw [h0], rfl, ?_⟩
  simp [TodoManager.addTask, TodoManager.getTasks]

/-- C5: in the View branch (choice 2) an empty list prints the "No tasks
available." message; a non-empty list prints the header "Your Tasks:" followed
by exactly one line per task, in list order, the line of the task at 0-based
index `k` being `k + 1`, a dot, a blank and the task text. The list and the
rest of the input are not touched and the loop keeps running. -/
theorem view_branch_output {σ : Type} (inp : IStream σ) (st : Ui.State σ)
    (hc : (inp.readInt st.cin).1 = 2) :
    (st.todoManager.getTasks = [] →
      Ui.loopBody inp st = .running ⟨st.todoManager, (inp.readInt st.cin).2,
        Ui.displayMenu st.cout ++ "No tasks available.\n" ++ "\n"⟩) ∧
    (st.todoManager.getTasks ≠ [] →
      Ui.loopBody inp st = .running ⟨st.todoManager, (inp.readInt st.cin).2,
        Ui.displayMenu st.cout ++ "Your Tasks:\n" ++
          String.join (List.ofFn (fun k : Fin st.todoManager.getTasks.length =>
            toString (k.val + 1) ++ ". " ++ st.todoManager.getTasks[k.val] ++ "\n")) ++
          "\n"⟩) := by
  constructor
  · intro he
    simp [Ui.loopBody, hc, he]
  · intro hne
    simp [Ui.loopBody, hc, hne, printTasks_eq]

/-- Witness for C5: after adding "Buy milk" then "Walk dog" to an empty list,
viewing prints the header and the lines "1. Buy milk" and "2. Walk dog". -/
theorem view_branch_output_witness :
    (scripted.readInt (⟨[2], [], []⟩ : Script)).1 = 2 ∧
    ((TodoManager.empty.addTask "Buy milk").addTask "Walk dog").getTasks ≠ [] ∧
    Ui.loopBody scripted
        ⟨(TodoManager.empty.addTask "Buy milk").addTask "Walk dog", ⟨[2], [], []⟩, ""⟩ =
      .running ⟨⟨["Buy milk", "Walk dog"]⟩, ⟨[], [], []⟩,
        "To-Do List Manager\n1. Add Task\n2. View Tasks\n3. Delete Task\n4. Exit\n" ++
        "Enter your choice: Your Tasks:\n1. Buy milk\n2. Walk dog\n\n"⟩ := by
  refine ⟨by decide, by decide, ?_⟩
  refine ((view_branch_output scripted
    ⟨(TodoManager.empty.addTask "Buy milk").addTask "Walk dog", ⟨[2], [], []⟩, ""⟩
    (by decide)).2 (by decide)).trans ?_
  decide

/-- C7: in the Delete branch (choice 3) on an empty list the loop prints "No
tasks to delete.", reads nothing more from the input (the stream is left as it
was right after the choice was read), keeps running, and the list stays
empty. -/
theorem delete_branch_empty {σ : Type} (inp : IStream σ) (st : Ui.State σ)
    (hc : (inp.readInt st.cin).1 = 3) (he : st.todoManager.getTasks = []) :
    Ui.loopBody inp st = .running ⟨st.todoManager, (inp.readInt st.cin).2,
      Ui.displayMenu st.cout ++ "No tasks to delete.\n" ++ "\n"⟩ ∧
    st.todoManager.getTasks = [] := by
  refine ⟨?_, he⟩
  simp [Ui.loopBody, hc, he]

/-- Witness for C7: with the number 5 waiting in the input, deleting from an
empty list leaves that number unread. -/
theorem delete_branch_empty_witness :
    (scripted.readInt (⟨[3], [5], []⟩ : Script)).1 = 3 ∧
    TodoManager.empty.getTasks = [] ∧
    Ui.loopBody scripted ⟨TodoManager.empty, ⟨[3], [5], []⟩, ""⟩ =
      .running ⟨⟨[]⟩, ⟨[], [5], []⟩,
        "To-Do List Manager\n1. Add Task\n2. View Tasks\n3. Delete Task\n4. Exit\n" ++
        "Enter your choice: No tasks to delete.\n\n"⟩ := by
  refine ⟨by decide, by decide, ?_⟩
  refine (delete_branch_empty scripted ⟨TodoManager.empty, ⟨[3], [5], []⟩, ""⟩
    (by decide) (by decide)).1.trans ?_
  decide

/-- A pass through the loop body returns exactly when the choice read is 4. -/
theorem loopBody_exited_iff {σ : Type} (inp : IStream σ) (st : Ui.State σ) :
    (∃ st', Ui.loopBody inp st = .exited st') ↔ (inp.readInt st.cin).1 = 4 := by
  constructor
  · rintro ⟨st', h⟩
    by_contra hc
    unfold Ui.loopBody at h
    simp only [hc, if_false] at h
    split_ifs at h
  · intro hc
    refine ⟨⟨st.todoManager, (inp.readInt st.cin).2,
      Ui.displayMenu st.cout ++ "Goodbye!\n"⟩, ?_⟩
    simp [Ui.loopBody, hc]

/-- A pass through the loop body with a choice other than 4 reaches the end of
the body. -/
theorem loopBody_running_of_ne {σ : Type} (inp : IStream σ) (st : Ui.State σ)
    (hc : (inp.readInt st.cin).1 ≠ 4) : ∃ st', Ui.loopBody inp st = .running st' := by
  cases h : Ui.loopBody inp st with
  | running st' => exact ⟨st', rfl⟩
  | exited st' => exact absurd ((loopBody_exited_iff inp st).mp ⟨st', h⟩) hc

/-- The cut loop has returned within `fuel` passes exactly when some earlier
pass started in a state whose next choice is 4. -/
theorem runApplication_exited_iff {σ : Type} (inp : IStream σ) (fuel : Nat) :
    ∀ st : Ui.State σ, (∃ st', Ui.runApplication inp fuel st = .exited st') ↔
      ∃ k stk, k < fuel ∧ Ui.runApplication inp k st = .running stk ∧
        (inp.readInt stk.cin).1 = 4 := by
  induction fuel with
  | zero =>
    intro st
    constructor
    · rintro ⟨st', h⟩
      simp [Ui.runApplication] at h
    · rintro ⟨k, stk, hk, _⟩
      omega
  | succ n ih =>
    intro st
    constructor
    · rintro ⟨st', h⟩
      cases hb : Ui.loopBody inp st with
      | running st1 =>
        rw [Ui.runApplication, hb] at h
        obtain ⟨k, stk, hk, hrun, hc⟩ := (ih st1).mp ⟨st', h⟩
        refine ⟨k + 1, stk, by omega, ?_, hc⟩
        rw [Ui.runApplication, hb]
        exact hrun
      | exited st1 =>
        exact ⟨0, st, by omega, rfl, (loopBody_exited_iff inp st).mp ⟨st1, hb⟩⟩
    · rintro ⟨k, stk, hk, hrun, hc⟩
      cases k with
      | zero =>
        simp only [Ui.runApplication, Loop.running.injEq] at hrun
        subst hrun
        obtain ⟨st1, hb⟩ := (loopBody_exited_iff inp st).mpr hc
        exact ⟨st1, by rw [Ui.runApplication, hb]⟩
      | succ k =>
        cases hb : Ui.loopBody inp st with
        | running st1 =>
          rw [Ui.runApplication, hb] at hrun
          obtain ⟨st', h⟩ := (ih st1).mpr ⟨k, stk, by omega, hrun, hc⟩
          exact ⟨st', by rw [Ui.runApplication, hb]; exact h⟩
        | exited st1 =>
          exact ⟨st1, by rw [Ui.runApplication, hb]⟩

/-- C8: one pass through the loop of `runApplication` ends the loop if and only
if the choice read is 4, and then prints "Goodbye!"; every other choice keeps
the loop running; a choice outside 1, 2, 3, 4 prints "Invalid choice. Try
again." and leaves the task list unchanged. Hence the loop has returned after
`fuel` passes exactly when one of these passes read the choice 4. -/
theorem loop_exit_only_on_four {σ : Type} (inp : IStream σ) (st : Ui.State σ) :
    ((∃ st', Ui.loopBody inp st = .exited st') ↔ (inp.readInt st.cin).1 = 4) ∧
    ((inp.readInt st.cin).1 = 4 →
      Ui.loopBody inp st = .exited ⟨st.todoManager, (inp.readInt st.cin).2,
        Ui.displayMenu st.cout ++ "Goodbye!\n"⟩) ∧
    ((inp.readInt st.cin).1 ≠ 4 → ∃ st', Ui.loopBody inp st = .running st') ∧
    ((inp.readInt st.cin).1 ≠ 1 ∧ (inp.readInt st.cin).1 ≠ 2 ∧
        (inp.readInt st.cin).1 ≠ 3 ∧ (inp.readInt st.cin).1 ≠ 4 →
      Ui.loopBody inp st = .running ⟨st.todoManager, (inp.readInt st.cin).2,
        Ui.displayMenu st.cout ++ "Invalid choice. Try again.\n" ++ "\n"⟩) ∧
    (∀ fuel, (∃ st', Ui.runApplication inp fuel st = .exited st') ↔
      ∃ k stk, k < fuel ∧ Ui.runApplication inp k st = .running stk ∧
        (inp.readInt stk.cin).1 = 4) := by
  refine ⟨loopBody_exited_iff inp st, ?_, loopBody_running_of_ne inp st, ?_,
    fun fuel => runApplication_exited_iff inp fuel st⟩
  · intro hc
    simp [Ui.loopBody, hc]
  · rintro ⟨h1, h2, h3, h4⟩
    simp [Ui.loopBody, h1, h2, h3, h4]

/-- Witness for C8: on a one-task list the choice 4 ends the loop with
"Goodbye!", while the choice 7 prints the invalid-choice message, keeps the
list and keeps the loop running. -/
theorem loop_exit_only_on_four_witness :
    Ui.loopBody scripted ⟨⟨["A"]⟩, ⟨[4], [], []⟩, ""⟩ =
      .exited ⟨⟨["A"]⟩, ⟨[], [], []⟩,
        Ui.displayMenu "" ++ "Goodbye!\n"⟩ ∧
    Ui.loopBody scripted ⟨⟨["A"]⟩, ⟨[7], [], []⟩, ""⟩ =
      .running ⟨⟨["A"]⟩, ⟨[], [], []⟩,
        Ui.displayMenu "" ++ "Invalid choice. Try again.\n" ++ "\n"⟩ :=
  ⟨(loop_exit_only_on_four scripted ⟨⟨["A"]⟩, ⟨[4], [], []⟩, ""⟩).2.1 (by decide),
   (loop_exit_only_on_four scripted ⟨⟨["A"]⟩, ⟨[7], [], []⟩, ""⟩).2.2.2.1
     ⟨by decide, by decide, by decide, by decide⟩⟩

/-- The Delete branch on a non-empty list when the guard holds: the pass calls
`deleteTask` with the wrapped difference and prints the confirmation. -/
theorem loopBody_delete_valid {σ : Type} (inp : IStream σ) (st : Ui.State σ) (n : Nat)
    (hc : (inp.readInt st.cin).1 = 3) (hne : st.todoManager.tasks ≠ [])
    (hn : (inp.readSize (inp.readInt st.cin).2).1 = n)
    (h0 : 0 < n) (hle : n ≤ st.todoManager.tasks.length) :
    Ui.loopBody inp st = .running ⟨st.todoManager.deleteTask (sizeSub n 1),
      (inp.readSize (inp.readInt st.cin).2).2,
      printTasks st.todoManager.tasks 0 (Ui.displayMenu st.cout ++ "Your Tasks:\n") ++
        "Enter task number to delete: " ++ "Task deleted!\n" ++ "\n"⟩ := by
  simp [Ui.loopBody, hc, hne, hn, h0, hle, TodoManager.getTasks]

/-- The Delete branch on a non-empty list when the guard fails: the manager is
left alone and the pass prints the rejection. -/
theorem loopBody_delete_invalid {σ : Type} (inp : IStream σ) (st : Ui.State σ) (n : Nat)
    (hc : (inp.readInt st.cin).1 = 3) (hne : st.todoManager.tasks ≠ [])
    (hn : (inp.readSize (inp.readInt st.cin).2).1 = n)
    (hg : ¬ (0 < n ∧ n ≤ st.todoManager.tasks.length)) :
    Ui.loopBody inp st = .running ⟨st.todoManager,
      (inp.readSize (inp.readInt st.cin).2).2,
      printTasks st.todoManager.tasks 0 (Ui.displayMenu st.cout ++ "Your Tasks:\n") ++
        "Enter task number to delete: " ++ "Invalid task number.\n" ++ "\n"⟩ := by
  simp [Ui.loopBody, hc, hne, hn, hg, TodoManager.getTasks]

/-- C4: in the Delete branch (choice 3) on a non-empty list, with `n` the number
read: when `n` is outside the range from 1 to the length, the loop prints
"Invalid task number." and the list is unchanged; otherwise the list loses the
element at 0-based position `n - 1` and the loop prints "Task deleted!". -/
theorem delete_branch_nonempty {σ : Type} (inp : IStream σ) (st : Ui.State σ) (n : Nat)
    (hc : (inp.readInt st.cin).1 = 3) (hne : st.todoManager.getTasks ≠ [])
    (hn : (inp.readSize (inp.readInt st.cin).2).1 = n) :
    (n < 1 ∨ st.todoManager.getTasks.length < n →
      Ui.loopBody inp st = .running ⟨st.todoManager, (inp.readSize (inp.readInt st.cin).2).2,
        printTasks st.todoManager.getTasks 0 (Ui.displayMenu st.cout ++ "Your Tasks:\n") ++
          "Enter task number to delete: " ++ "Invalid task number.\n" ++ "\n"⟩) ∧
    (1 ≤ n ∧ n ≤ st.todoManager.getTasks.length →
      Ui.loopBody inp st = .running ⟨⟨st.todoManager.getTasks.eraseIdx (n - 1)⟩,
        (inp.readSize (inp.readInt st.cin).2).2,
        printTasks st.todoManager.getTasks 0 (Ui.displayMenu st.cout ++ "Your Tasks:\n") ++
          "Enter task number to delete: " ++ "Task deleted!\n" ++ "\n"⟩) := by
  have hlt : n < SIZE_MOD := hn ▸ inp.readSize_lt _
  simp only [TodoManager.getTasks]
  constructor
  · intro hout
    exact loopBody_delete_invalid inp st n hc hne hn (by omega)
  · rintro ⟨h1, hle⟩
    have h0 : 0 < n := h1
    have hidx : n - 1 < st.todoManager.tasks.length := by omega
    rw [loopBody_delete_valid inp st n hc hne hn h0 hle, sizeSub_one n h0 hlt]
    simp [TodoManager.deleteTask, hidx]

/-- Witness for C4: on the list A, B, C the number 2 leaves A, C; on the list
A, B the numbers 0 and 3 are rejected and the list is unchanged. -/
theorem delete_branch_nonempty_witness :
    Ui.loopBody scripted ⟨⟨["A", "B", "C"]⟩, ⟨[3], [2], []⟩, ""⟩ =
      .running ⟨⟨["A", "C"]⟩, ⟨[], [], []⟩,
        "To-Do List Manager\n1. Add Task\n2. View Tasks\n3. Delete Task\n4. Exit\n" ++
        "Enter your choice: Your Tasks:\n1. A\n2. B\n3. C\n" ++
        "Enter task number to delete: Task deleted!\n\n"⟩ ∧
    Ui.loopBody scripted ⟨⟨["A", "B"]⟩, ⟨[3], [0], []⟩, ""⟩ =
      .running ⟨⟨["A", "B"]⟩, ⟨[], [], []⟩,
        "To-Do List Manager\n1. Add Task\n2. View Tasks\n3. Delete Task\n4. Exit\n" ++
        "Enter your choice: Your Tasks:\n1. A\n2. B\n" ++
        "Enter task number to delete: Invalid task number.\n\n"⟩ ∧
    Ui.loopBody scripted ⟨⟨["A", "B"]⟩, ⟨[3], [3], []⟩, ""⟩ =
      .running ⟨⟨["A", "B"]⟩, ⟨[], [], []⟩,
        "To-Do List Manager\n1. Add Task\n2. View Tasks\n3. Delete Task\n4. Exit\n" ++
        "Enter your choice: Your Tasks:\n1. A\n2. B\n" ++
        "Enter task number to delete: Invalid task number.\n\n"⟩ := by
  refine ⟨?_, ?_, ?_⟩
  · refine ((delete_branch_nonempty scripted ⟨⟨["A", "B", "C"]⟩, ⟨[3], [2], []⟩, ""⟩ 2
      (by decide) (by decide) (by decide)).2 ⟨by decide, by decide⟩).trans ?_
    rw [printTasks_eq]
    decide
  · refine ((delete_branch_nonempty scripted ⟨⟨["A", "B"]⟩, ⟨[3], [0], []⟩, ""⟩ 0
      (by decide) (by decide) (by decide)).1 (Or.inl (by decide))).trans ?_
    rw [printTasks_eq]
    decide
  · refine ((delete_branch_nonempty scripted ⟨⟨["A", "B"]⟩, ⟨[3], [3], []⟩, ""⟩ 3
      (by decide) (by decide) (by decide)).1 (Or.inr (by decide))).trans ?_
    rw [printTasks_eq]
    decide

/-- The text printed by one View pass depends on the task list only: it is
appended to whatever was printed before, whatever the state of the input. -/
theorem view_text_depends_on_tasks (m : TodoManager) :
    ∃ d : String, ∀ {σ : Type} (inp : IStream σ) (st : Ui.State σ),
      st.todoManager = m → (inp.readInt st.cin).1 = 2 →
      Ui.loopBody inp st = .running ⟨m, (inp.readInt st.cin).2, st.cout ++ d⟩ := by
  by_cases he : m.tasks = []
  · refine ⟨"To-Do List Manager\n" ++ "1. Add Task\n" ++ "2. View Tasks\n" ++
      "3. Delete Task\n" ++ "4. Exit\n" ++ "Enter your choice: " ++
      "No tasks available.\n" ++ "\n", ?_⟩
    intro σ inp st hm hc
    subst hm
    simp [Ui.loopBody, Ui.displayMenu, hc, he, TodoManager.getTasks, String.append_assoc]
  · refine ⟨"To-Do List Manager\n" ++ "1. Add Task\n" ++ "2. View Tasks\n" ++
      "3. Delete Task\n" ++ "4. Exit\n" ++ "Enter your choice: " ++ "Your Tasks:\n" ++
      String.join (List.ofFn (fun k : Fin m.tasks.length =>
        toString (k.val + 1) ++ ". " ++ m.tasks[k.val] ++ "\n")) ++ "\n", ?_⟩
    intro σ inp st hm hc
    subst hm
    simp [Ui.loopBody, Ui.displayMenu, hc, he, TodoManager.getTasks, printTasks_eq,
      String.append_assoc]

/-- C9: viewing is read-only and idempotent. Two View passes in a row both keep
the loop running and leave the task list as it was, and both print the same
text `d`. -/
theorem view_twice_same_output {σ : Type} (inp : IStream σ) (st : Ui.State σ)
    (h1 : (inp.readInt st.cin).1 = 2)
    (h2 : (inp.readInt (inp.readInt st.cin).2).1 = 2) :
    ∃ (d : String) (st1 st2 : Ui.State σ),
      Ui.loopBody inp st = .running st1 ∧ Ui.loopBody inp st1 = .running st2 ∧
      Ui.runApplication inp 2 st = .running st2 ∧
      st1.todoManager.getTasks = st.todoManager.getTasks ∧
      st2.todoManager.getTasks = st.todoManager.getTasks ∧
      st1.cout = st.cout ++ d ∧ st2.cout = st1.cout ++ d := by
  obtain ⟨d, hd⟩ := view_text_depends_on_tasks st.todoManager
  have e1 := hd inp st rfl h1
  have e2 := hd inp ⟨st.todoManager, (inp.readInt st.cin).2, st.cout ++ d⟩ rfl h2
  refine ⟨d, _, _, e1, e2, ?_, rfl, rfl, rfl, rfl⟩
  simp [Ui.runApplication, e1, e2]

/-- Witness for C9: two View passes on the list A, B. -/
theorem view_twice_same_output_witness :
    (scripted.readInt (⟨[2, 2], [], []⟩ : Script)).1 = 2 ∧
    (scripted.readInt (scripted.readInt (⟨[2, 2], [], []⟩ : Script)).2).1 = 2 ∧
    ∃ (d : String) (st1 st2 : Ui.State Script),
      Ui.loopBody scripted ⟨⟨["A", "B"]⟩, ⟨[2, 2], [], []⟩, ""⟩ = .running st1 ∧
      Ui.loopBody scripted st1 = .running st2 ∧
      Ui.runApplication scripted 2 ⟨⟨["A", "B"]⟩, ⟨[2, 2], [], []⟩, ""⟩ = .running st2 ∧
      st1.todoManager.getTasks = ["A", "B"] ∧
      st2.todoManager.getTasks = ["A", "B"] ∧
      st1.cout = "" ++ d ∧ st2.cout = st1.cout ++ d :=
  ⟨by decide, by decide,
   view_twice_same_output scripted ⟨⟨["A", "B"]⟩, ⟨[2, 2], [], []⟩, ""⟩ (by decide) (by decide)⟩

/-- C6, evaluated at the input `4` on an empty task list: both programs leave
the list empty, consume the token and return, but they do not print the same
text. The class-based loop prints the menu line "2. View Tasks", the prompt
"Enter your choice: " and the farewell "Goodbye!"; the free-function program
prints "2. View Task", a newline after the prompt and the misspelt farewell
"Googbye!". -/
theorem implementations_print_differently :
    Ui.runApplication scripted 1 ⟨TodoManager.empty, ⟨[4], [], []⟩, ""⟩ =
      .exited ⟨⟨[]⟩, ⟨[], [], []⟩,
        "To-Do List Manager\n1. Add Task\n2. View Tasks\n3. Delete Task\n4. Exit\n" ++
        "Enter your choice: Goodbye!\n"⟩ ∧
    Free.main scripted 1 ⟨[4], [], []⟩ =
      .exited ⟨[], ⟨[], [], []⟩,
        "To-Do List Manager\n1. Add Task\n2. View Task\n3. Delete Task\n4. Exit\n" ++
        "Enter your choice: \nGoogbye!\n"⟩ ∧
    ("To-Do List Manager\n1. Add Task\n2. View Tasks\n3. Delete Task\n4. Exit\n" ++
        "Enter your choice: Goodbye!\n" : String) ≠
      "To-Do List Manager\n1. Add Task\n2. View Task\n3. Delete Task\n4. Exit\n" ++
        "Enter your choice: \nGoogbye!\n" := by
  refine ⟨by decide, by decide, by decide⟩
